import Mathlib

/-!
Verification of the API 2000 tank-venting calculation engine.

Shallow embedding of the TypeScript sources:
  - `src/lib/lookups/interpolate.ts`      → `interpolate`, `interpolateNE`, `interpLoop`
  - `src/lib/lookups/yFactor.ts`          → `getYFactor`
  - `src/lib/lookups/cFactor.ts`          → `isLowVolatility`, `getCFactor`
  - `src/lib/lookups/fFactor.ts`          → `getFFactorInsulated`, `getEnvironmentalFactor`
  - `src/lib/lookups/normalVentTable.ts`  → `normalVentInbreathing`, `normalVentOutbreathing`
  - `src/lib/lookups/emergencyVentTable.ts` → `emergencyVentTableLookup`
  - `src/lib/calculations/geometry.ts`    → `calcMaxTankVolume`, ..., `computeDerivedGeometry`
  - `src/lib/calculations/normalVenting.ts` → `computeNormalVenting`
  - `src/lib/calculations/emergencyVenting.ts` → `selectCoefficients`, `computeEmergencyVenting`
  - `src/lib/calculations/drain.ts`       → `computeDrainInbreathing`
  - `src/lib/calculations/index.ts`       → `calculate`

JavaScript numbers are modelled by `ℝ` (exact real arithmetic); thrown
exceptions are modelled by `Except String`; `undefined`-able fields by
`Option`.  `new Date().toISOString()` in the orchestrator is modelled by an
explicit clock argument `now : String`.
-/

set_option maxHeartbeats 1000000

namespace Venting

-- ─── Data model (src/types/index.ts) ──────────────────────────────────────────

inductive TankConfiguration where
  | BARE_METAL
  | INSULATED_FULL
  /-- models the source's INSULATED_PARTIAL variant -/
  | PARTIALLY_INSULATED
  | CONCRETE
  | WATER_APPLICATION
  | DEPRESSURING
  | UNDERGROUND
  | EARTH_COVERED
  | IMPOUNDMENT_AWAY
  | IMPOUNDMENT
  deriving DecidableEq

inductive ApiEdition where
  | fifth
  | sixth
  | seventh
  deriving DecidableEq

inductive FlashBoilingPointType where
  | FP
  | BP
  deriving DecidableEq

inductive ReferenceFluid where
  | hexane
  | userDefined
  deriving DecidableEq

structure Stream where
  streamNo : String
  flowrate : ℝ

structure OutgoingStream where
  streamNo : String
  flowrate : ℝ
  description : Option String

structure CalculationInput where
  tankNumber : String
  description : Option String
  diameter : ℝ
  height : ℝ
  latitude : ℝ
  designPressure : ℝ
  tankConfiguration : TankConfiguration
  insulationThickness : Option ℝ
  insulationConductivity : Option ℝ
  insideHeatTransferCoeff : Option ℝ
  insulatedSurfaceArea : Option ℝ
  avgStorageTemp : ℝ
  vapourPressure : ℝ
  flashBoilingPointType : FlashBoilingPointType
  flashBoilingPoint : Option ℝ
  latentHeat : Option ℝ
  relievingTemperature : Option ℝ
  molecularMass : Option ℝ
  incomingStreams : List Stream
  outgoingStreams : List OutgoingStream
  drainLineSize : Option ℝ
  maxHeightAboveDrain : Option ℝ
  apiEdition : ApiEdition

structure DerivedGeometry where
  maxTankVolume : ℝ
  shellSurfaceArea : ℝ
  coneRoofArea : ℝ
  totalSurfaceArea : ℝ
  wettedArea : ℝ
  reductionFactor : ℝ

structure OutbreathingResult where
  processFlowrate : ℝ
  yFactor : ℝ
  reductionFactor : ℝ
  thermalOutbreathing : ℝ
  total : ℝ

structure InbreathingResult where
  processFlowrate : ℝ
  cFactor : ℝ
  reductionFactor : ℝ
  thermalInbreathing : ℝ
  total : ℝ

structure NormalVentingResult where
  outbreathing : OutbreathingResult
  inbreathing : InbreathingResult

structure HeatInputCoefficients where
  a : ℝ
  n : ℝ

structure EmergencyVentingResult where
  heatInput : ℝ
  environmentalFactor : ℝ
  emergencyVentRequired : ℝ
  coefficients : HeatInputCoefficients
  referenceFluid : ReferenceFluid

structure VentingSummary where
  designOutbreathing : ℝ
  designInbreathing : ℝ
  emergencyVenting : ℝ

structure CalculationWarnings where
  capacityExceedsTable : Bool
  undergroundTank : Bool
  hexaneDefaults : Bool

structure CalculationResult where
  derived : DerivedGeometry
  normalVenting : NormalVentingResult
  emergencyVenting : EmergencyVentingResult
  drainInbreathing : Option ℝ
  summary : VentingSummary
  warnings : CalculationWarnings
  apiEdition : ApiEdition
  calculatedAt : String

-- ─── Interpolation primitive (src/lib/lookups/interpolate.ts) ─────────────────

/-- Error message thrown by `interpolate` on an empty table. -/
def emptyTableMsg : String := "interpolate: table must not be empty"

/-- Bracket search of `interpolate.ts` lines 20-26: `findIndex(([xi]) => xi > x)`
scans for the first row whose key exceeds `x` and interpolates between that row
and its predecessor (the accumulator `p`). -/
noncomputable def interpLoop (x : ℝ) : (ℝ × ℝ) → List (ℝ × ℝ) → ℝ
  | p, [] => p.2
  | p, q :: rest =>
      if x < q.1 then p.2 + ((q.2 - p.2) / (q.1 - p.1)) * (x - p.1)
      else interpLoop x q rest

/-- The body of `interpolate` for a non-empty table: single-row degenerate
clamp, clamp below the first key, clamp above the last key, otherwise linear
interpolation between the bracketing rows.  (The static tables of this
repository are all non-empty, so their lookup wrappers call this total core.) -/
noncomputable def interpolateNE (x : ℝ) : List (ℝ × ℝ) → ℝ
  | [] => 0
  | [p] => p.2
  | p :: q :: rest =>
      if x ≤ p.1 then p.2
      else
        if ((q :: rest).getLast (List.cons_ne_nil q rest)).1 ≤ x then
          ((q :: rest).getLast (List.cons_ne_nil q rest)).2
        else interpLoop x p (q :: rest)

/-- `interpolate` from `interpolate.ts`: throws on an empty table, otherwise
computes the clamped linear interpolation. -/
noncomputable def interpolate (x : ℝ) (table : List (ℝ × ℝ)) : Except String ℝ :=
  match table with
  | [] => Except.error emptyTableMsg
  | p :: rest => Except.ok (interpolateNE x (p :: rest))

/-- Row ordering: strictly ascending keys. -/
def keyLt (a b : ℝ × ℝ) : Prop := a.1 < b.1

-- ─── Helper lemmas about interpLoop / interpolateNE ───────────────────────────

lemma interpolate_eq_ok (x : ℝ) (t : List (ℝ × ℝ)) (hne : t ≠ []) :
    interpolate x t = Except.ok (interpolateNE x t) := by
  cases t with
  | nil => exact absurd rfl hne
  | cons p l => rfl

lemma getLast_cons_concat :
    ∀ (l : List (ℝ × ℝ)) (a b : ℝ × ℝ),
      (a :: (l ++ [b])).getLast (List.cons_ne_nil _ _) = b := by
  intro l
  induction l with
  | nil => intro a b; rfl
  | cons c t ih =>
      intro a b
      simp only [List.cons_append, List.getLast_cons_cons]
      exact ih c b

lemma interpLoop_stop {x : ℝ} {q : ℝ × ℝ} (p : ℝ × ℝ) (l : List (ℝ × ℝ))
    (h : x < q.1) :
    interpLoop x p (q :: l) = p.2 + ((q.2 - p.2) / (q.1 - p.1)) * (x - p.1) := by
  simp [interpLoop, h]

lemma interpLoop_skip {x : ℝ} :
    ∀ (l1 : List (ℝ × ℝ)) (p : ℝ × ℝ), (∀ q ∈ l1, q.1 ≤ x) →
    ∀ l2, interpLoop x p (l1 ++ l2) =
      interpLoop x ((p :: l1).getLast (List.cons_ne_nil p l1)) l2 := by
  intro l1
  induction l1 with
  | nil => intro p _ l2; rfl
  | cons q l1 ih =>
      intro p hq l2
      have hq1 : q.1 ≤ x := hq q (List.mem_cons_self q l1)
      have hnot : ¬ x < q.1 := not_lt.mpr hq1
      have step : interpLoop x p ((q :: l1) ++ l2) = interpLoop x q (l1 ++ l2) := by
        simp [interpLoop, hnot]
      rw [step, ih q (fun r hr => hq r (List.mem_cons_of_mem q hr)) l2,
        List.getLast_cons (List.cons_ne_nil q l1)]

lemma key_le_getLast :
    ∀ (l : List (ℝ × ℝ)) (h : l ≠ []), l.Pairwise keyLt →
    ∀ a ∈ l, a.1 ≤ (l.getLast h).1 := by
  intro l
  induction l with
  | nil => intro h; exact absurd rfl h
  | cons b t ih =>
      intro h hs a ha
      cases t with
      | nil =>
          have hab : a = b := by simpa using ha
          simp [hab]
      | cons c t2 =>
          rw [List.getLast_cons (List.cons_ne_nil c t2)]
          rcases List.mem_cons.mp ha with hab | hat
          · have hblt : ∀ r ∈ c :: t2, b.1 < r.1 := by
              intro r hr
              exact (List.pairwise_cons.mp hs).1 r hr
            have hlast : (c :: t2).getLast (List.cons_ne_nil c t2) ∈ c :: t2 :=
              List.getLast_mem _
            rw [hab]
            exact le_of_lt (hblt _ hlast)
          · exact ih (List.cons_ne_nil c t2) (List.pairwise_cons.mp hs).2 a hat

lemma interpolateNE_clampLow {x : ℝ} (p : ℝ × ℝ) (l : List (ℝ × ℝ))
    (hx : x ≤ p.1) : interpolateNE x (p :: l) = p.2 := by
  cases l with
  | nil => rfl
  | cons q rest => simp [interpolateNE, hx]

lemma interpolateNE_clampHigh {x : ℝ} (p : ℝ × ℝ) (l : List (ℝ × ℝ))
    (hs : (p :: l).Pairwise keyLt)
    (hx : ((p :: l).getLast (List.cons_ne_nil p l)).1 ≤ x) :
    interpolateNE x (p :: l) = ((p :: l).getLast (List.cons_ne_nil p l)).2 := by
  cases l with
  | nil => rfl
  | cons q rest =>
      rw [List.getLast_cons (List.cons_ne_nil q rest)] at hx ⊢
      have hplt : p.1 < ((q :: rest).getLast (List.cons_ne_nil q rest)).1 :=
        (List.pairwise_cons.mp hs).1 _ (List.getLast_mem _)
      have hnot : ¬ x ≤ p.1 := not_le.mpr (lt_of_lt_of_le hplt hx)
      simp [interpolateNE, hnot, hx]

lemma interpolateNE_bracket {x x0 y0 x1 y1 : ℝ} (pre suf : List (ℝ × ℝ))
    (hs : (pre ++ (x0, y0) :: (x1, y1) :: suf).Pairwise keyLt)
    (h0 : x0 ≤ x) (h1 : x < x1) :
    interpolateNE x (pre ++ (x0, y0) :: (x1, y1) :: suf) =
      y0 + ((y1 - y0) / (x1 - x0)) * (x - x0) := by
  cases pre with
  | nil =>
      rw [List.nil_append] at hs ⊢
      by_cases hx : x ≤ x0
      · have hxx : x = x0 := le_antisymm hx h0
        rw [interpolateNE_clampLow (x0, y0) ((x1, y1) :: suf) hx]
        rw [hxx]; ring
      · have htail : ((x1, y1) :: suf).Pairwise keyLt := (List.pairwise_cons.mp hs).2
        have hx1last : x1 ≤ (((x1, y1) :: suf).getLast (List.cons_ne_nil _ _)).1 := by
          have h := key_le_getLast ((x1, y1) :: suf) (List.cons_ne_nil _ _) htail
            (x1, y1) (List.mem_cons_self _ _)
          simpa using h
        have hnotlast : ¬ (((x1, y1) :: suf).getLast (List.cons_ne_nil _ _)).1 ≤ x :=
          not_le.mpr (lt_of_lt_of_le h1 hx1last)
        have hstep : interpolateNE x ((x0, y0) :: (x1, y1) :: suf)
            = interpLoop x (x0, y0) ((x1, y1) :: suf) := by
          simp only [interpolateNE]
          rw [if_neg hx, if_neg hnotlast]
        rw [hstep, interpLoop_stop _ _ h1]
  | cons ph pre2 =>
      have hsplit : ∃ q rest, pre2 ++ (x0, y0) :: (x1, y1) :: suf = q :: rest := by
        cases pre2 with
        | nil => exact ⟨(x0, y0), (x1, y1) :: suf, rfl⟩
        | cons a t => exact ⟨a, t ++ (x0, y0) :: (x1, y1) :: suf, rfl⟩
      obtain ⟨q, rest, hqr⟩ := hsplit
      have hcons : ph :: pre2 ++ (x0, y0) :: (x1, y1) :: suf = ph :: q :: rest := by
        simp [← hqr]
      rw [hcons]
      have hs2 : (ph :: q :: rest).Pairwise keyLt := by rw [← hcons]; exact hs
      have hhead : ∀ r ∈ q :: rest, ph.1 < r.1 := (List.pairwise_cons.mp hs2).1
      have htail : (q :: rest).Pairwise keyLt := (List.pairwise_cons.mp hs2).2
      have hx0mem : (x0, y0) ∈ q :: rest := by
        rw [← hqr]
        exact List.mem_append_right pre2 (List.mem_cons_self _ _)
      have hphx : ph.1 < x0 := hhead _ hx0mem
      have hnotlow : ¬ x ≤ ph.1 := not_le.mpr (lt_of_lt_of_le hphx h0)
      have hx1mem : (x1, y1) ∈ q :: rest := by
        rw [← hqr]
        exact List.mem_append_right pre2 (List.mem_cons_of_mem _ (List.mem_cons_self _ _))
      have hx1last : x1 ≤ ((q :: rest).getLast (List.cons_ne_nil q rest)).1 := by
        have h := key_le_getLast (q :: rest) (List.cons_ne_nil q rest) htail (x1, y1) hx1mem
        simpa using h
      have hnothigh : ¬ ((q :: rest).getLast (List.cons_ne_nil q rest)).1 ≤ x :=
        not_le.mpr (lt_of_lt_of_le h1 hx1last)
      have hloop : interpolateNE x (ph :: q :: rest) = interpLoop x ph (q :: rest) := by
        simp only [interpolateNE]
        rw [if_neg hnotlow, if_neg hnothigh]
      rw [hloop]
      have hdecomp : q :: rest = (pre2 ++ [(x0, y0)]) ++ (x1, y1) :: suf := by
        rw [← hqr]; simp
      have hallle : ∀ r ∈ pre2 ++ [(x0, y0)], r.1 ≤ x := by
        intro r hr
        rcases List.mem_append.mp hr with hrp | hrx
        · have hpw := htail
          rw [hdecomp] at hpw
          have hsplitpw := List.pairwise_append.mp hpw
          have hfront := List.pairwise_append.mp hsplitpw.1
          have hlt := hfront.2.2 r hrp (x0, y0) (List.mem_cons_self _ _)
          exact le_of_lt (lt_of_lt_of_le hlt h0)
        · have hre : r = (x0, y0) := by simpa using hrx
          rw [hre]; exact h0
      rw [hdecomp, interpLoop_skip (pre2 ++ [(x0, y0)]) ph hallle ((x1, y1) :: suf)]
      rw [getLast_cons_concat pre2 ph (x0, y0), interpLoop_stop _ _ h1]

-- ─── C1 ───────────────────────────────────────────────────────────────────────

/-- C1: `interpolate` over a strictly ascending table clamps to the first value
at or below the smallest key, clamps to the last value at or above the largest
key, returns the exact linear interpolation `y0 + (y1-y0)/(x1-x0)*(x-x0)` for
bracketing rows `(x0,y0),(x1,y1)` with `x0 ≤ x < x1`, errors on the empty
table, and reproduces every table row exactly. -/
theorem interpolate_clamp_bracket_spec (t : List (ℝ × ℝ)) (x : ℝ)
    (hs : t.Pairwise keyLt) :
    (interpolate x ([] : List (ℝ × ℝ)) = Except.error emptyTableMsg)
    ∧ (∀ p l, t = p :: l → x ≤ p.1 → interpolate x t = Except.ok p.2)
    ∧ (∀ p l, t = p :: l →
        (((p :: l).getLast (List.cons_ne_nil p l)).1 ≤ x →
          interpolate x t = Except.ok (((p :: l).getLast (List.cons_ne_nil p l)).2)))
    ∧ (∀ pre x0 y0 x1 y1 suf, t = pre ++ (x0, y0) :: (x1, y1) :: suf →
        x0 ≤ x → x < x1 →
        interpolate x t = Except.ok (y0 + ((y1 - y0) / (x1 - x0)) * (x - x0)))
    ∧ (∀ k v, (k, v) ∈ t → interpolate k t = Except.ok v) := by
  refine ⟨rfl, ?_, ?_, ?_, ?_⟩
  · intro p l ht hx
    subst ht
    rw [interpolate_eq_ok x _ (List.cons_ne_nil p l)]
    rw [interpolateNE_clampLow p l hx]
  · intro p l ht hx
    subst ht
    rw [interpolate_eq_ok x _ (List.cons_ne_nil p l)]
    rw [interpolateNE_clampHigh p l hs hx]
  · intro pre x0 y0 x1 y1 suf ht h0 h1
    subst ht
    rw [interpolate_eq_ok x _ (by cases pre <;> simp)]
    rw [interpolateNE_bracket pre suf hs h0 h1]
  · intro k v hm
    obtain ⟨pre, suf, hps⟩ := List.append_of_mem hm
    subst hps
    cases suf with
    | nil =>
        cases pre with
        | nil =>
            rw [List.nil_append, interpolate_eq_ok k _ (List.cons_ne_nil _ _)]
            rw [interpolateNE_clampLow (k, v) [] (le_refl k)]
        | cons a t2 =>
            have hs2 : (a :: (t2 ++ [(k, v)])).Pairwise keyLt := by
              simpa using hs
            have hg : (a :: (t2 ++ [(k, v)])).getLast (List.cons_ne_nil _ _) = (k, v) :=
              getLast_cons_concat t2 a (k, v)
            have hval : interpolateNE k (a :: (t2 ++ [(k, v)])) = v := by
              rw [interpolateNE_clampHigh a (t2 ++ [(k, v)]) hs2 (by rw [hg]), hg]
            have hne : (a :: t2) ++ [(k, v)] ≠ [] := by simp
            rw [interpolate_eq_ok k _ hne]
            have hee : (a :: t2) ++ [(k, v)] = a :: (t2 ++ [(k, v)]) := by simp
            rw [hee, hval]
    | cons w suf2 =>
        have hkw : k < w.1 := by
          have hsplit := List.pairwise_append.mp hs
          have hcons := List.pairwise_cons.mp hsplit.2.1
          exact hcons.1 w (List.mem_cons_self _ _)
        have hne : pre ++ (k, v) :: w :: suf2 ≠ [] := by cases pre <;> simp
        rw [interpolate_eq_ok k _ hne]
        have hval : interpolateNE k (pre ++ (k, v) :: w :: suf2) = v := by
          have hb := @interpolateNE_bracket k k v w.1 w.2 pre suf2 hs (le_refl k) hkw
          calc interpolateNE k (pre ++ (k, v) :: w :: suf2)
              = v + ((w.2 - v) / (w.1 - k)) * (k - k) := hb
            _ = v := by ring
        rw [hval]

/-- Witness for C1 at a concrete two-row table: interpolation inside the
bracket `(0,1),(2,5)` at `x = 1`. -/
theorem interpolate_clamp_bracket_spec_witness :
    interpolate (1 : ℝ) [((0 : ℝ), (1 : ℝ)), ((2 : ℝ), (5 : ℝ))] =
      Except.ok (1 + ((5 - 1) / (2 - 0)) * (1 - 0)) := by
  have hs : ([((0 : ℝ), (1 : ℝ)), ((2 : ℝ), (5 : ℝ))]).Pairwise keyLt := by
    simp [keyLt]
  have h := (interpolate_clamp_bracket_spec [((0 : ℝ), (1 : ℝ)), ((2 : ℝ), (5 : ℝ))] 1 hs).2.2.2.1
  exact h [] 0 1 2 5 [] rfl (by norm_num) (by norm_num)

-- ─── Constants (src/lib/constants.ts) ─────────────────────────────────────────

noncomputable def LATITUDE_BAND_LOW : ℝ := 42

noncomputable def LATITUDE_BAND_MID : ℝ := 58

noncomputable def FLASH_POINT_THRESHOLD : ℝ := 37.8

noncomputable def BOILING_POINT_THRESHOLD : ℝ := 149

noncomputable def CAPACITY_WARNING_M3 : ℝ := 30000

noncomputable def WETTED_AREA_HEIGHT_CAP_MM : ℝ := 9144

noncomputable def CONE_ROOF_SLOPE : ℝ := 12

structure HexaneDefaultValues where
  latentHeat : ℝ
  relievingTemperature : ℝ
  molecularMass : ℝ

noncomputable def HEXANE_DEFAULTS : HexaneDefaultValues :=
  { latentHeat := 334.9, relievingTemperature := 15.6, molecularMass := 86.17 }

-- ─── Y-factor (src/lib/lookups/yFactor.ts) ────────────────────────────────────

noncomputable def getYFactor (latitude : ℝ) : ℝ :=
  if latitude ≤ LATITUDE_BAND_LOW then 0.32
  else if latitude ≤ LATITUDE_BAND_MID then 0.25
  else 0.20

-- ─── C-factor (src/lib/lookups/cFactor.ts) ────────────────────────────────────

noncomputable def isLowVolatility (flashBoilingPointType : FlashBoilingPointType)
    (flashBoilingPoint : Option ℝ) : Bool :=
  match flashBoilingPoint with
  | none => false
  | some v =>
      match flashBoilingPointType with
      | FlashBoilingPointType.FP => decide (v ≥ FLASH_POINT_THRESHOLD)
      | FlashBoilingPointType.BP => decide (v ≥ BOILING_POINT_THRESHOLD)

noncomputable def getCFactor (latitude : ℝ) (flashBoilingPointType : FlashBoilingPointType)
    (flashBoilingPoint : Option ℝ) (capacityM3 : ℝ) : ℝ :=
  let lowVol := isLowVolatility flashBoilingPointType flashBoilingPoint
  let smallTank := decide (capacityM3 < 25)
  if latitude ≤ LATITUDE_BAND_LOW then
    if lowVol && smallTank then 4 else 6.5
  else if latitude ≤ LATITUDE_BAND_MID then
    if lowVol && smallTank then 3 else 5
  else
    if lowVol && smallTank then 2.5 else 4

-- ─── Normal Vent Table (src/lib/lookups/normalVentTable.ts) ───────────────────

/-- Rows: capacity m³, inbreathing, outbreathing low-volatility, outbreathing other. -/
noncomputable def NORMAL_VENT_TABLE : List (ℝ × ℝ × ℝ × ℝ) :=
  [(10, 1.69, 1.01, 1.69),
   (20, 3.38, 2.02, 3.38),
   (100, 16.9, 10.1, 16.9),
   (200, 33.8, 20.3, 33.8),
   (300, 50.4, 30.4, 50.4),
   (500, 84.4, 50.7, 84.5),
   (700, 118, 71, 118),
   (1000, 169, 101, 169),
   (1500, 254, 152, 254),
   (2000, 338, 203, 338),
   (3000, 507, 304, 507),
   (3180, 537, 322, 537),
   (4000, 647, 388, 647),
   (5000, 787, 472, 787),
   (6000, 896, 538, 896),
   (10000, 1210, 726, 1210),
   (12000, 1345, 807, 1345),
   (14000, 1480, 888, 1480),
   (16000, 1615, 969, 1615),
   (18000, 1750, 1047, 1750),
   (25000, 2179, 1307, 2179),
   (30000, 2495, 1497, 2495)]

noncomputable def INBREATHING_COL : List (ℝ × ℝ) :=
  NORMAL_VENT_TABLE.map (fun r => (r.1, r.2.1))

noncomputable def OUT_LOW_VOL_COL : List (ℝ × ℝ) :=
  NORMAL_VENT_TABLE.map (fun r => (r.1, r.2.2.1))

noncomputable def OUT_OTHER_COL : List (ℝ × ℝ) :=
  NORMAL_VENT_TABLE.map (fun r => (r.1, r.2.2.2))

/-- `normalVentInbreathing` calls `interpolate` on the static non-empty
22-row column, which never throws; embedded via the total core. -/
noncomputable def normalVentInbreathing (capacityM3 : ℝ) : ℝ :=
  interpolateNE capacityM3 INBREATHING_COL

/-- `normalVentOutbreathing` calls `interpolate` on one of the two static
non-empty 22-row columns, which never throws; embedded via the total core. -/
noncomputable def normalVentOutbreathing (capacityM3 : ℝ) (lowVolatility : Bool) : ℝ :=
  interpolateNE capacityM3 (if lowVolatility then OUT_LOW_VOL_COL else OUT_OTHER_COL)

-- ─── Normal venting (src/lib/calculations/normalVenting.ts) ───────────────────

noncomputable def sumFlowrates (streams : List Stream) : ℝ :=
  streams.foldl (fun acc s => acc + s.flowrate) 0

noncomputable def sumOutgoingFlowrates (streams : List OutgoingStream) : ℝ :=
  streams.foldl (fun acc s => acc + s.flowrate) 0

/-- `computeNormalVenting`: outbreathing is driven by incoming streams,
inbreathing by outgoing streams; 5TH uses the normal-vent tables and
`max(process, thermal)`; 6TH and 7TH use `Y × V^0.9 × R` / `C × V^0.7 × R`
and `process + thermal`. -/
noncomputable def computeNormalVenting (input : CalculationInput)
    (derived : DerivedGeometry) : NormalVentingResult :=
  let incomingTotal := sumFlowrates input.incomingStreams
  let outgoingTotal := sumOutgoingFlowrates input.outgoingStreams
  let lowVol := isLowVolatility input.flashBoilingPointType input.flashBoilingPoint
  let tableIn := normalVentInbreathing derived.maxTankVolume
  let tableOut := normalVentOutbreathing derived.maxTankVolume lowVol
  match input.apiEdition with
  | ApiEdition.fifth =>
      let processInbreathing := 0.94 * outgoingTotal
      let processOutbreathing := incomingTotal
      let thermalIn := tableIn * derived.reductionFactor
      let thermalOut := tableOut * derived.reductionFactor
      { outbreathing :=
          { processFlowrate := processOutbreathing
            yFactor := 1
            reductionFactor := derived.reductionFactor
            thermalOutbreathing := thermalOut
            total := max processOutbreathing thermalOut }
        inbreathing :=
          { processFlowrate := processInbreathing
            cFactor := 1
            reductionFactor := derived.reductionFactor
            thermalInbreathing := thermalIn
            total := max processInbreathing thermalIn } }
  | ApiEdition.sixth =>
      let processInbreathing := outgoingTotal
      let processOutbreathing := incomingTotal
      let yFactor := getYFactor input.latitude
      let cFactor := getCFactor input.latitude input.flashBoilingPointType
        input.flashBoilingPoint derived.maxTankVolume
      let thermalOut := yFactor * derived.maxTankVolume ^ (0.9 : ℝ) * derived.reductionFactor
      let thermalIn := cFactor * derived.maxTankVolume ^ (0.7 : ℝ) * derived.reductionFactor
      { outbreathing :=
          { processFlowrate := processOutbreathing
            yFactor := yFactor
            reductionFactor := derived.reductionFactor
            thermalOutbreathing := thermalOut
            total := processOutbreathing + thermalOut }
        inbreathing :=
          { processFlowrate := processInbreathing
            cFactor := cFactor
            reductionFactor := derived.reductionFactor
            thermalInbreathing := thermalIn
            total := processInbreathing + thermalIn } }
  | ApiEdition.seventh =>
      let processInbreathing := outgoingTotal
      let processOutbreathing := incomingTotal
      let yFactor := getYFactor input.latitude
      let cFactor := getCFactor input.latitude input.flashBoilingPointType
        input.flashBoilingPoint derived.maxTankVolume
      let thermalOut := yFactor * derived.maxTankVolume ^ (0.9 : ℝ) * derived.reductionFactor
      let thermalIn := cFactor * derived.maxTankVolume ^ (0.7 : ℝ) * derived.reductionFactor
      { outbreathing :=
          { processFlowrate := processOutbreathing
            yFactor := yFactor
            reductionFactor := derived.reductionFactor
            thermalOutbreathing := thermalOut
            total := processOutbreathing + thermalOut }
        inbreathing :=
          { processFlowrate := processInbreathing
            cFactor := cFactor
            reductionFactor := derived.reductionFactor
            thermalInbreathing := thermalIn
            total := processInbreathing + thermalIn } }

-- ─── Example input data for witnesses and counterexamples ─────────────────────

/-- Reference input (spec §8 concrete scenario, bare-metal tank, 7TH edition). -/
noncomputable def exInput : CalculationInput :=
  { tankNumber := "T-100"
    description := none
    diameter := 24000
    height := 17500
    latitude := 12.7
    designPressure := 5
    tankConfiguration := TankConfiguration.BARE_METAL
    insulationThickness := none
    insulationConductivity := none
    insideHeatTransferCoeff := none
    insulatedSurfaceArea := none
    avgStorageTemp := 30
    vapourPressure := 1
    flashBoilingPointType := FlashBoilingPointType.FP
    flashBoilingPoint := none
    latentHeat := none
    relievingTemperature := none
    molecularMass := none
    incomingStreams := []
    outgoingStreams := [{ streamNo := "1", flowrate := 368.9, description := none }]
    drainLineSize := none
    maxHeightAboveDrain := none
    apiEdition := ApiEdition.seventh }

noncomputable def exInput6 : CalculationInput :=
  { exInput with apiEdition := ApiEdition.sixth }

/-- A rational-valued geometry record for witnesses. -/
noncomputable def exDerived : DerivedGeometry :=
  { maxTankVolume := 100
    shellSurfaceArea := 50
    coneRoofArea := 10
    totalSurfaceArea := 60
    wettedArea := 10
    reductionFactor := 1 }

-- ─── C2 ───────────────────────────────────────────────────────────────────────

/-- C2: `computeNormalVenting` combines totals as `process + thermal` exactly
under the 6TH and 7TH editions, as `max(process, thermal)` exactly under the
5TH edition, and reports Y-factor and C-factor as 1 under the 5TH edition. -/
theorem normalVenting_combination (inp : CalculationInput) (der : DerivedGeometry) :
    ((inp.apiEdition = ApiEdition.sixth ∨ inp.apiEdition = ApiEdition.seventh) →
      ((computeNormalVenting inp der).outbreathing.total =
          (computeNormalVenting inp der).outbreathing.processFlowrate +
            (computeNormalVenting inp der).outbreathing.thermalOutbreathing
        ∧ (computeNormalVenting inp der).inbreathing.total =
          (computeNormalVenting inp der).inbreathing.processFlowrate +
            (computeNormalVenting inp der).inbreathing.thermalInbreathing))
    ∧ (inp.apiEdition = ApiEdition.fifth →
      ((computeNormalVenting inp der).outbreathing.total =
          max (computeNormalVenting inp der).outbreathing.processFlowrate
            (computeNormalVenting inp der).outbreathing.thermalOutbreathing
        ∧ (computeNormalVenting inp der).inbreathing.total =
          max (computeNormalVenting inp der).inbreathing.processFlowrate
            (computeNormalVenting inp der).inbreathing.thermalInbreathing
        ∧ (computeNormalVenting inp der).outbreathing.yFactor = 1
        ∧ (computeNormalVenting inp der).inbreathing.cFactor = 1)) := by
  cases he : inp.apiEdition with
  | fifth =>
      refine ⟨fun h => ?_, fun _ => ?_⟩
      · rcases h with h | h <;> simp [he] at h
      · simp [computeNormalVenting, he]
  | sixth =>
      refine ⟨fun _ => ?_, fun h => ?_⟩
      · simp [computeNormalVenting, he]
      · simp [he] at h
  | seventh =>
      refine ⟨fun _ => ?_, fun h => ?_⟩
      · simp [computeNormalVenting, he]
      · simp [he] at h

/-- Witness for C2 at the concrete 6TH-edition reference input. -/
theorem normalVenting_combination_witness :
    (computeNormalVenting exInput6 exDerived).outbreathing.total =
      (computeNormalVenting exInput6 exDerived).outbreathing.processFlowrate +
        (computeNormalVenting exInput6 exDerived).outbreathing.thermalOutbreathing
    ∧ (computeNormalVenting exInput6 exDerived).inbreathing.total =
      (computeNormalVenting exInput6 exDerived).inbreathing.processFlowrate +
        (computeNormalVenting exInput6 exDerived).inbreathing.thermalInbreathing :=
  (normalVenting_combination exInput6 exDerived).1 (Or.inl rfl)

-- ─── C3 (corrected) ───────────────────────────────────────────────────────────

/-- 5TH-edition input with one incoming stream of 1 m³/h and a
low-volatility fluid (flash point 100 °C ≥ 37.8 °C). -/
noncomputable def cInp3 : CalculationInput :=
  { exInput with
    apiEdition := ApiEdition.fifth
    flashBoilingPoint := some 100
    incomingStreams := [{ streamNo := "1", flowrate := 1 }]
    outgoingStreams := [] }

/-- C3 counterexample: under the 5TH edition with a low-volatility fluid and
incoming-stream sum 1, the claim predicts a process outbreathing term of
`1.01 × 1 = 1.01`; the code returns the plain sum `1`. -/
theorem processOutbreathing_weight_refuted :
    isLowVolatility cInp3.flashBoilingPointType cInp3.flashBoilingPoint = true
    ∧ sumFlowrates cInp3.incomingStreams = 1
    ∧ cInp3.apiEdition = ApiEdition.fifth
    ∧ (computeNormalVenting cInp3 exDerived).outbreathing.processFlowrate ≠ 1.01 := by
  refine ⟨?_, ?_, rfl, ?_⟩
  · norm_num [isLowVolatility, cInp3, exInput, FLASH_POINT_THRESHOLD]
  · norm_num [sumFlowrates, cInp3, exInput]
  · have h : (computeNormalVenting cInp3 exDerived).outbreathing.processFlowrate =
        sumFlowrates cInp3.incomingStreams := by
      simp [computeNormalVenting, cInp3, exInput]
    rw [h]
    norm_num [sumFlowrates, cInp3, exInput]

/-- C3 amended: the process outbreathing term is the plain (unweighted) sum of
the incoming-stream flowrates under every edition; no 1.01/2.02 fluid-class
weighting and no vapour-pressure weighting is applied. -/
theorem processOutbreathing_is_plain_incoming_sum (inp : CalculationInput)
    (der : DerivedGeometry) :
    (computeNormalVenting inp der).outbreathing.processFlowrate =
      sumFlowrates inp.incomingStreams := by
  cases he : inp.apiEdition <;> simp [computeNormalVenting, he]

-- ─── C4 ───────────────────────────────────────────────────────────────────────

/-- C4: under the 6TH edition the thermal outbreathing term is
`Y(latitude) × volume^0.9 × R` and the thermal inbreathing term is
`C(latitude, fluid class, capacity) × volume^0.7 × R`, where `Y` is the
latitude-band step function `≤42 → 0.32`, `≤58 → 0.25`, `>58 → 0.20` with
boundaries inclusive on the lower band. -/
theorem thermal_terms_sixth_edition (inp : CalculationInput) (der : DerivedGeometry)
    (h : inp.apiEdition = ApiEdition.sixth) :
    (computeNormalVenting inp der).outbreathing.thermalOutbreathing =
      getYFactor inp.latitude * der.maxTankVolume ^ (0.9 : ℝ) * der.reductionFactor
    ∧ (computeNormalVenting inp der).inbreathing.thermalInbreathing =
      getCFactor inp.latitude inp.flashBoilingPointType inp.flashBoilingPoint
        der.maxTankVolume * der.maxTankVolume ^ (0.7 : ℝ) * der.reductionFactor
    ∧ (∀ lat : ℝ, lat ≤ 42 → getYFactor lat = 0.32)
    ∧ (∀ lat : ℝ, 42 < lat → lat ≤ 58 → getYFactor lat = 0.25)
    ∧ (∀ lat : ℝ, 58 < lat → getYFactor lat = 0.20) := by
  refine ⟨?_, ?_, ?_, ?_, ?_⟩
  · simp [computeNormalVenting, h]
  · simp [computeNormalVenting, h]
  · intro lat hl
    rw [getYFactor, if_pos (by rw [LATITUDE_BAND_LOW]; exact hl)]
  · intro lat hl1 hl2
    rw [getYFactor, if_neg (by rw [LATITUDE_BAND_LOW]; exact not_le.mpr hl1),
      if_pos (by rw [LATITUDE_BAND_MID]; exact hl2)]
  · intro lat hl
    rw [getYFactor, if_neg (by rw [LATITUDE_BAND_LOW]; exact not_le.mpr (by linarith)),
      if_neg (by rw [LATITUDE_BAND_MID]; exact not_le.mpr hl)]

/-- Witness for C4: concrete 6TH-edition input plus the Y bands at
latitudes 30, 50 and 60. -/
theorem thermal_terms_sixth_edition_witness :
    (computeNormalVenting exInput6 exDerived).outbreathing.thermalOutbreathing =
      getYFactor exInput6.latitude * exDerived.maxTankVolume ^ (0.9 : ℝ) *
        exDerived.reductionFactor
    ∧ getYFactor 30 = 0.32 ∧ getYFactor 50 = 0.25 ∧ getYFactor 60 = 0.20 := by
  refine ⟨(thermal_terms_sixth_edition exInput6 exDerived rfl).1, ?_, ?_, ?_⟩
  · exact (thermal_terms_sixth_edition exInput6 exDerived rfl).2.2.1 30 (by norm_num)
  · exact (thermal_terms_sixth_edition exInput6 exDerived rfl).2.2.2.1 50
      (by norm_num) (by norm_num)
  · exact (thermal_terms_sixth_edition exInput6 exDerived rfl).2.2.2.2 60 (by norm_num)

-- ─── F-factor (src/lib/lookups/fFactor.ts) ────────────────────────────────────

/-- Conductance → F-factor pairs, sorted ascending by conductance. -/
noncomputable def F_FACTOR_TABLE : List (ℝ × ℝ) :=
  [(1.9, 0.025),
   (2.3, 0.030),
   (2.8, 0.0375),
   (3.8, 0.050),
   (5.7, 0.075),
   (11.4, 0.150),
   (22.7, 0.300)]

/-- `getFFactorInsulated` interpolates `interpolate` over the static non-empty
7-row conductance table, which never throws; embedded via the total core. -/
noncomputable def getFFactorInsulated (conductivityWmK thicknessMm : ℝ) : ℝ :=
  let thicknessM := thicknessMm / 1000
  let conductance := conductivityWmK / thicknessM
  interpolateNE conductance F_FACTOR_TABLE

/-- Fixed environmental factors per configuration; `none` for the two insulated
variants, which are computed from the F-factor table. -/
noncomputable def FIXED_ENVIRONMENTAL_FACTORS : TankConfiguration → Option ℝ
  | TankConfiguration.BARE_METAL => some 1.0
  | TankConfiguration.WATER_APPLICATION => some 1.0
  | TankConfiguration.DEPRESSURING => some 1.0
  | TankConfiguration.UNDERGROUND => some 0
  | TankConfiguration.EARTH_COVERED => some 0.03
  | TankConfiguration.IMPOUNDMENT_AWAY => some 0.3
  | TankConfiguration.IMPOUNDMENT => some 0.5
  | TankConfiguration.CONCRETE => some 0.03
  | TankConfiguration.INSULATED_FULL => none
  | TankConfiguration.PARTIALLY_INSULATED => none

def missingInsulationMsg : String :=
  "getEnvironmentalFactor: insulation parameters required for insulated configuration"

noncomputable def getEnvironmentalFactor (config : TankConfiguration)
    (conductivityWmK thicknessMm : Option ℝ) : Except String ℝ :=
  match FIXED_ENVIRONMENTAL_FACTORS config with
  | some fixed => Except.ok fixed
  | none =>
      match conductivityWmK, thicknessMm with
      | some k, some t => Except.ok (getFFactorInsulated k t)
      | _, _ => Except.error missingInsulationMsg

-- ─── Emergency Vent Table (src/lib/lookups/emergencyVentTable.ts) ─────────────

noncomputable def EMERGENCY_VENT_TABLE : List (ℝ × ℝ) :=
  [(2, 608),
   (3, 913),
   (9, 2738),
   (11, 3347),
   (13, 3955),
   (15, 4563),
   (17, 5172),
   (19, 5780),
   (22, 6217),
   (25, 6684),
   (30, 7411),
   (35, 8086),
   (40, 8721),
   (45, 9322),
   (50, 9895),
   (60, 10971),
   (70, 11971),
   (80, 12911),
   (90, 13801),
   (110, 15461),
   (130, 15751),
   (150, 16532),
   (175, 17416),
   (200, 18220),
   (230, 19102),
   (260, 19910)]

/-- `emergencyVentTableLookup` calls `interpolate` on the static non-empty
26-row table, which never throws; embedded via the total core. -/
noncomputable def emergencyVentTableLookup (wettedAreaM2 : ℝ) : ℝ :=
  interpolateNE wettedAreaM2 EMERGENCY_VENT_TABLE

-- ─── Emergency venting (src/lib/calculations/emergencyVenting.ts) ─────────────

/-- Heat-input coefficient selection by wetted area and design pressure
(`selectCoefficients`, lines 11-23). -/
noncomputable def selectCoefficients (wettedAreaM2 designPressure : ℝ) :
    HeatInputCoefficients :=
  if wettedAreaM2 < 18.6 then { a := 63150, n := 1 }
  else if wettedAreaM2 < 93 then { a := 224200, n := 0.566 }
  else if wettedAreaM2 < 260 then { a := 630400, n := 0.338 }
  else if designPressure > 7 then { a := 43200, n := 0.82 }
  else { a := 4129700, n := 0 }

/-- `latentHeat ?? HEXANE_DEFAULTS.latentHeat` (line 62). -/
noncomputable def resolvedLatentHeat (input : CalculationInput) : ℝ :=
  input.latentHeat.getD HEXANE_DEFAULTS.latentHeat

/-- `relievingTemperature ?? HEXANE_DEFAULTS.relievingTemperature` (line 63). -/
noncomputable def resolvedRelievingTemperature (input : CalculationInput) : ℝ :=
  input.relievingTemperature.getD HEXANE_DEFAULTS.relievingTemperature

/-- `molecularMass ?? HEXANE_DEFAULTS.molecularMass` (line 64). -/
noncomputable def resolvedMolecularMass (input : CalculationInput) : ℝ :=
  input.molecularMass.getD HEXANE_DEFAULTS.molecularMass

/-- Reference-fluid tag (lines 66-69): Hexane exactly when all three fluid
fields are unspecified. -/
noncomputable def referenceFluidOf (input : CalculationInput) : ReferenceFluid :=
  match input.latentHeat, input.relievingTemperature, input.molecularMass with
  | none, none, none => ReferenceFluid.hexane
  | _, _, _ => ReferenceFluid.userDefined

/-- Body of `computeEmergencyVenting` after the environmental factor `F` has
been resolved (the only step that can throw). -/
noncomputable def emergencyCore (input : CalculationInput) (derived : DerivedGeometry)
    (F : ℝ) : EmergencyVentingResult :=
  let L := resolvedLatentHeat input
  let T_r := resolvedRelievingTemperature input
  let M := resolvedMolecularMass input
  let refFluid := referenceFluidOf input
  let coefficients := selectCoefficients derived.wettedArea input.designPressure
  let Q := coefficients.a * derived.wettedArea ^ coefficients.n
  let emergencyVentRequired :=
    if derived.wettedArea < 260 then F * emergencyVentTableLookup derived.wettedArea
    else if refFluid = ReferenceFluid.userDefined then
      906.6 * Q * F / (1000 * L) * Real.sqrt ((T_r + 273.15) / M)
    else if input.designPressure ≤ 7 then F * 19910
    else 208.2 * F * derived.wettedArea ^ (0.82 : ℝ)
  { heatInput := Q
    environmentalFactor := F
    emergencyVentRequired := emergencyVentRequired
    coefficients := coefficients
    referenceFluid := refFluid }

/-- `computeEmergencyVenting`: the environmental-factor lookup may throw for
insulated configurations; everything else is pure. -/
noncomputable def computeEmergencyVenting (input : CalculationInput)
    (derived : DerivedGeometry) : Except String EmergencyVentingResult :=
  (getEnvironmentalFactor input.tankConfiguration input.insulationConductivity
    input.insulationThickness).map (emergencyCore input derived)

-- ─── Geometry (src/lib/calculations/geometry.ts) ──────────────────────────────

noncomputable def calcMaxTankVolume (diameterMm heightMm : ℝ) : ℝ :=
  let r := diameterMm / 2
  (Real.pi * r * r * heightMm) / 1e9

noncomputable def calcShellSurfaceArea (diameterMm heightMm : ℝ) : ℝ :=
  (Real.pi * diameterMm * heightMm) / 1e6

noncomputable def calcConeRoofArea (diameterMm : ℝ) : ℝ :=
  let rM := diameterMm / 2 / 1000
  let hRoofM := diameterMm / CONE_ROOF_SLOPE / 1000
  let slant := Real.sqrt (rM * rM + hRoofM * hRoofM)
  Real.pi * rM * slant

noncomputable def calcTotalSurfaceArea (shellM2 coneRoofM2 : ℝ) : ℝ :=
  shellM2 + coneRoofM2

noncomputable def calcWettedArea (diameterMm heightMm : ℝ) : ℝ :=
  min ((Real.pi * diameterMm * heightMm) / 1e6)
    ((Real.pi * diameterMm * WETTED_AREA_HEIGHT_CAP_MM) / 1e6)

noncomputable def calcR_in (insideHeatTransferCoeff insulationThicknessMm
    insulationConductivity : ℝ) : ℝ :=
  let tM := insulationThicknessMm / 1000
  1 / (1 + (insideHeatTransferCoeff * tM) / insulationConductivity)

/-- `calcR_inp` (geometry.ts lines 93-100): area-weighted blend of `R_in` and
bare metal.  Note: the source performs the division `A_inp / A_TTS` unguarded
(the zero check shown in PD.md §5 is absent from the implementation). -/
noncomputable def calcR_inp (totalSurfaceAreaM2 insulatedSurfaceAreaM2 r_in : ℝ) : ℝ :=
  let q := insulatedSurfaceAreaM2 / totalSurfaceAreaM2
  q * r_in + (1 - q) * 1

def missingInsulationGeomMsg : String :=
  "computeDerivedGeometry: insulation parameters are required for insulated configurations"

def missingPartialAreaMsg : String :=
  "computeDerivedGeometry: insulatedSurfaceArea is required for INSULATED_PARTIAL"

noncomputable def computeDerivedGeometry (input : CalculationInput) :
    Except String DerivedGeometry :=
  let shellSurfaceArea := calcShellSurfaceArea input.diameter input.height
  let coneRoofArea := calcConeRoofArea input.diameter
  let totalSurfaceArea := calcTotalSurfaceArea shellSurfaceArea coneRoofArea
  let maxTankVolume := calcMaxTankVolume input.diameter input.height
  let wettedArea := calcWettedArea input.diameter input.height
  if input.tankConfiguration = TankConfiguration.INSULATED_FULL ∨
      input.tankConfiguration = TankConfiguration.PARTIALLY_INSULATED then
    match input.insideHeatTransferCoeff, input.insulationThickness,
        input.insulationConductivity with
    | some U, some t, some k =>
        let r_in := calcR_in U t k
        if input.tankConfiguration = TankConfiguration.INSULATED_FULL then
          Except.ok
            { maxTankVolume := maxTankVolume
              shellSurfaceArea := shellSurfaceArea
              coneRoofArea := coneRoofArea
              totalSurfaceArea := totalSurfaceArea
              wettedArea := wettedArea
              reductionFactor := r_in }
        else
          match input.insulatedSurfaceArea with
          | some A_inp =>
              Except.ok
                { maxTankVolume := maxTankVolume
                  shellSurfaceArea := shellSurfaceArea
                  coneRoofArea := coneRoofArea
                  totalSurfaceArea := totalSurfaceArea
                  wettedArea := wettedArea
                  reductionFactor := calcR_inp totalSurfaceArea A_inp r_in }
          | none => Except.error missingPartialAreaMsg
    | _, _, _ => Except.error missingInsulationGeomMsg
  else
    Except.ok
      { maxTankVolume := maxTankVolume
        shellSurfaceArea := shellSurfaceArea
        coneRoofArea := coneRoofArea
        totalSurfaceArea := totalSurfaceArea
        wettedArea := wettedArea
        reductionFactor := 1.0 }

-- ─── Drain (src/lib/calculations/drain.ts) ────────────────────────────────────

noncomputable def computeDrainInbreathing (drainLineSizeMm maxHeightAboveDrainMm : ℝ) : ℝ :=
  let d := drainLineSizeMm / 1000
  let H := maxHeightAboveDrainMm / 1000
  3.48 * d * d * Real.sqrt H * 3600 * 0.94

-- ─── Orchestrator (src/lib/calculations/index.ts) ─────────────────────────────

/-- `calculate`: geometry → normal venting → emergency venting → optional
drain → summary and warnings.  `new Date().toISOString()` is modelled by the
explicit clock argument `now`. -/
noncomputable def calculate (input : CalculationInput) (now : String) :
    Except String CalculationResult :=
  match computeDerivedGeometry input with
  | Except.error e => Except.error e
  | Except.ok derived =>
      let normalVenting := computeNormalVenting input derived
      match computeEmergencyVenting input derived with
      | Except.error e => Except.error e
      | Except.ok emergencyVenting =>
          let drainInbreathing : Option ℝ :=
            match input.drainLineSize, input.maxHeightAboveDrain with
            | some d, some h => some (computeDrainInbreathing d h)
            | _, _ => none
          let designInbreathing :=
            max normalVenting.inbreathing.total (drainInbreathing.getD 0)
          Except.ok
            { derived := derived
              normalVenting := normalVenting
              emergencyVenting := emergencyVenting
              drainInbreathing := drainInbreathing
              summary :=
                { designOutbreathing := normalVenting.outbreathing.total
                  designInbreathing := designInbreathing
                  emergencyVenting := emergencyVenting.emergencyVentRequired }
              warnings :=
                { capacityExceedsTable := decide (derived.maxTankVolume > CAPACITY_WARNING_M3)
                  undergroundTank := decide (emergencyVenting.environmentalFactor = 0)
                  hexaneDefaults :=
                    input.latentHeat.isNone || input.relievingTemperature.isNone ||
                      input.molecularMass.isNone }
              apiEdition := input.apiEdition
              calculatedAt := now }

-- ─── C5 ───────────────────────────────────────────────────────────────────────

/-- C5: coefficient selection is the documented step function of wetted area
and design pressure, and the heat input is `Q = a × area^n` for the selected
coefficients. -/
theorem selectCoefficients_step_and_heatInput (area p : ℝ)
    (inp : CalculationInput) (der : DerivedGeometry) (r : EmergencyVentingResult)
    (h : computeEmergencyVenting inp der = Except.ok r) :
    (area < 18.6 → selectCoefficients area p = { a := 63150, n := 1 })
    ∧ (18.6 ≤ area → area < 93 → selectCoefficients area p = { a := 224200, n := 0.566 })
    ∧ (93 ≤ area → area < 260 → selectCoefficients area p = { a := 630400, n := 0.338 })
    ∧ (260 ≤ area → 7 < p → selectCoefficients area p = { a := 43200, n := 0.82 })
    ∧ (260 ≤ area → p ≤ 7 → selectCoefficients area p = { a := 4129700, n := 0 })
    ∧ r.coefficients = selectCoefficients der.wettedArea inp.designPressure
    ∧ r.heatInput = r.coefficients.a * der.wettedArea ^ r.coefficients.n := by
  have hr : ∃ F, r = emergencyCore inp der F := by
    rcases hF : getEnvironmentalFactor inp.tankConfiguration inp.insulationConductivity
        inp.insulationThickness with e | F
    · rw [computeEmergencyVenting, hF] at h
      simp [Except.map] at h
    · rw [computeEmergencyVenting, hF] at h
      simp only [Except.map, Except.ok.injEq] at h
      exact ⟨F, h.symm⟩
  obtain ⟨F, hrF⟩ := hr
  subst hrF
  refine ⟨?_, ?_, ?_, ?_, ?_, ?_, ?_⟩
  · intro h1
    rw [selectCoefficients, if_pos h1]
  · intro h1 h2
    rw [selectCoefficients, if_neg (not_lt.mpr h1), if_pos h2]
  · intro h1 h2
    rw [selectCoefficients, if_neg (not_lt.mpr (by linarith)),
      if_neg (not_lt.mpr h1), if_pos h2]
  · intro h1 h2
    rw [selectCoefficients, if_neg (not_lt.mpr (by linarith)),
      if_neg (not_lt.mpr (by linarith)), if_neg (not_lt.mpr h1), if_pos h2]
  · intro h1 h2
    rw [selectCoefficients, if_neg (not_lt.mpr (by linarith)),
      if_neg (not_lt.mpr (by linarith)), if_neg (not_lt.mpr h1),
      if_neg (not_lt.mpr h2)]
  · simp [emergencyCore]
  · simp [emergencyCore]

/-- Witness for C5: the small-area band at (10, 5) and the heat input at the
concrete bare-metal reference input. -/
theorem selectCoefficients_step_and_heatInput_witness :
    selectCoefficients 10 5 = { a := 63150, n := 1 }
    ∧ (emergencyCore exInput exDerived 1.0).heatInput =
        (emergencyCore exInput exDerived 1.0).coefficients.a *
          exDerived.wettedArea ^ (emergencyCore exInput exDerived 1.0).coefficients.n := by
  have h := selectCoefficients_step_and_heatInput 10 5 exInput exDerived
    (emergencyCore exInput exDerived 1.0) rfl
  exact ⟨h.1 (by norm_num), h.2.2.2.2.2.2⟩

-- ─── C6 (corrected) ───────────────────────────────────────────────────────────

/-- User-defined fluid chosen so that the general formula yields 4129.7:
`L = 906.6`, `T_r = 15.6`, `M = 288.75` (so the square root is 1). -/
noncomputable def cInp6 : CalculationInput :=
  { exInput with
    latentHeat := some 906.6
    relievingTemperature := some 15.6
    molecularMass := some 288.75 }

/-- Geometry with wetted area exactly 260 m². -/
noncomputable def cDer6 : DerivedGeometry :=
  { exDerived with wettedArea := 260 }

/-- C6 counterexample: at wetted area exactly 260 m² (which is "at most
260 m²") the code does not return the table-based vent rate
`F × emergencyVentTableLookup(area)`: it takes the ≥ 260 formula branch. -/
theorem emergencyVenting_table_at_260_refuted :
    cDer6.wettedArea ≤ 260
    ∧ (computeEmergencyVenting cInp6 cDer6).map EmergencyVentingResult.emergencyVentRequired ≠
        Except.ok ((1 : ℝ) * emergencyVentTableLookup cDer6.wettedArea) := by
  constructor
  · norm_num [cDer6, exDerived]
  · have hsel : selectCoefficients cDer6.wettedArea cInp6.designPressure =
        { a := 4129700, n := 0 } := by
      rw [show cDer6.wettedArea = (260 : ℝ) from rfl,
        show cInp6.designPressure = (5 : ℝ) from rfl]
      rw [selectCoefficients, if_neg (by norm_num), if_neg (by norm_num),
        if_neg (by norm_num), if_neg (by norm_num)]
    have hVal : (emergencyCore cInp6 cDer6 1.0).emergencyVentRequired = 4129.7 := by
      simp only [emergencyCore, hsel]
      rw [if_neg (by norm_num [cDer6, exDerived]),
        if_pos (show referenceFluidOf cInp6 = ReferenceFluid.userDefined from rfl)]
      rw [show resolvedLatentHeat cInp6 = 906.6 from rfl,
        show resolvedRelievingTemperature cInp6 = 15.6 from rfl,
        show resolvedMolecularMass cInp6 = 288.75 from rfl]
      rw [show cDer6.wettedArea = (260 : ℝ) from rfl]
      rw [Real.rpow_zero]
      rw [show ((15.6 : ℝ) + 273.15) / 288.75 = 1 by norm_num, Real.sqrt_one]
      norm_num
    have htab : emergencyVentTableLookup cDer6.wettedArea = 19910 := by
      rw [show cDer6.wettedArea = (260 : ℝ) from rfl]
      rw [emergencyVentTableLookup, EMERGENCY_VENT_TABLE]
      norm_num [interpolateNE, List.getLast]
    have hmap : (computeEmergencyVenting cInp6 cDer6).map
        EmergencyVentingResult.emergencyVentRequired =
        Except.ok ((emergencyCore cInp6 cDer6 1.0).emergencyVentRequired) := rfl
    rw [hmap, hVal, htab]
    intro heq
    rw [Except.ok.injEq] at heq
    norm_num at heq

/-- C6 amended: the table path is taken exactly for wetted area strictly below
260 m²; at or above 260 m² the general formula is used for user-defined fluids
and the simplified Hexane formulas otherwise. -/
theorem emergencyVentRate_formula_selection (inp : CalculationInput)
    (der : DerivedGeometry) (r : EmergencyVentingResult)
    (h : computeEmergencyVenting inp der = Except.ok r) :
    (der.wettedArea < 260 →
      r.emergencyVentRequired = r.environmentalFactor * emergencyVentTableLookup der.wettedArea)
    ∧ (260 ≤ der.wettedArea → r.referenceFluid = ReferenceFluid.userDefined →
      r.emergencyVentRequired = 906.6 * r.heatInput * r.environmentalFactor /
        (1000 * resolvedLatentHeat inp) *
        Real.sqrt ((resolvedRelievingTemperature inp + 273.15) / resolvedMolecularMass inp))
    ∧ (260 ≤ der.wettedArea → r.referenceFluid = ReferenceFluid.hexane →
        inp.designPressure ≤ 7 →
        r.emergencyVentRequired = r.environmentalFactor * 19910)
    ∧ (260 ≤ der.wettedArea → r.referenceFluid = ReferenceFluid.hexane →
        7 < inp.designPressure →
        r.emergencyVentRequired = 208.2 * r.environmentalFactor * der.wettedArea ^ (0.82 : ℝ)) := by
  have hr : ∃ F, r = emergencyCore inp der F := by
    rcases hF : getEnvironmentalFactor inp.tankConfiguration inp.insulationConductivity
        inp.insulationThickness with e | F
    · rw [computeEmergencyVenting, hF] at h
      simp [Except.map] at h
    · rw [computeEmergencyVenting, hF] at h
      simp only [Except.map, Except.ok.injEq] at h
      exact ⟨F, h.symm⟩
  obtain ⟨F, hrF⟩ := hr
  subst hrF
  refine ⟨?_, ?_, ?_, ?_⟩
  · intro h260
    simp [emergencyCore, h260]
  · intro h260 huser
    have hnot : ¬ der.wettedArea < 260 := not_lt.mpr h260
    simp only [emergencyCore] at huser
    simp [emergencyCore, hnot, huser]
  · intro h260 hhex h7
    have hnot : ¬ der.wettedArea < 260 := not_lt.mpr h260
    simp only [emergencyCore] at hhex
    simp [emergencyCore, hnot, hhex, h7]
  · intro h260 hhex h7
    have hnot : ¬ der.wettedArea < 260 := not_lt.mpr h260
    simp only [emergencyCore] at hhex
    simp [emergencyCore, hnot, hhex, not_le.mpr h7]

/-- Witness for C6 (amended): the table path at a 10 m² wetted area. -/
theorem emergencyVentRate_formula_selection_witness :
    (emergencyCore exInput exDerived 1.0).emergencyVentRequired =
      (emergencyCore exInput exDerived 1.0).environmentalFactor *
        emergencyVentTableLookup exDerived.wettedArea := by
  exact (emergencyVentRate_formula_selection exInput exDerived
    (emergencyCore exInput exDerived 1.0) rfl).1 (by norm_num [exDerived])

-- ─── C7 ───────────────────────────────────────────────────────────────────────

/-- C7: the reference fluid is tagged Hexane exactly when latent heat,
relieving temperature and molecular mass are all unspecified; each of the
three fields individually defaults to its Hexane value when unspecified and
keeps its given value otherwise. -/
theorem referenceFluid_resolution (inp : CalculationInput) (der : DerivedGeometry)
    (r : EmergencyVentingResult) (h : computeEmergencyVenting inp der = Except.ok r) :
    (r.referenceFluid = ReferenceFluid.hexane ↔
      inp.latentHeat = none ∧ inp.relievingTemperature = none ∧ inp.molecularMass = none)
    ∧ (inp.latentHeat = none → resolvedLatentHeat inp = 334.9)
    ∧ (∀ v, inp.latentHeat = some v → resolvedLatentHeat inp = v)
    ∧ (inp.relievingTemperature = none → resolvedRelievingTemperature inp = 15.6)
    ∧ (∀ v, inp.relievingTemperature = some v → resolvedRelievingTemperature inp = v)
    ∧ (inp.molecularMass = none → resolvedMolecularMass inp = 86.17)
    ∧ (∀ v, inp.molecularMass = some v → resolvedMolecularMass inp = v) := by
  have hr : ∃ F, r = emergencyCore inp der F := by
    rcases hF : getEnvironmentalFactor inp.tankConfiguration inp.insulationConductivity
        inp.insulationThickness with e | F
    · rw [computeEmergencyVenting, hF] at h
      simp [Except.map] at h
    · rw [computeEmergencyVenting, hF] at h
      simp only [Except.map, Except.ok.injEq] at h
      exact ⟨F, h.symm⟩
  obtain ⟨F, hrF⟩ := hr
  subst hrF
  refine ⟨?_, ?_, ?_, ?_, ?_, ?_, ?_⟩
  · have hrf : (emergencyCore inp der F).referenceFluid = referenceFluidOf inp := by
      simp [emergencyCore]
    rw [hrf, referenceFluidOf]
    rcases hL : inp.latentHeat with _ | vL <;>
      rcases hT : inp.relievingTemperature with _ | vT <;>
        rcases hM : inp.molecularMass with _ | vM <;> simp
  · intro hL
    rw [resolvedLatentHeat, hL]
    rfl
  · intro v hL
    rw [resolvedLatentHeat, hL]
    rfl
  · intro hT
    rw [resolvedRelievingTemperature, hT]
    rfl
  · intro v hT
    rw [resolvedRelievingTemperature, hT]
    rfl
  · intro hM
    rw [resolvedMolecularMass, hM]
    rfl
  · intro v hM
    rw [resolvedMolecularMass, hM]
    rfl

/-- Witness for C7: the reference input leaves all three fields unspecified,
so the tag is Hexane and the defaults apply. -/
theorem referenceFluid_resolution_witness :
    ((emergencyCore exInput exDerived 1.0).referenceFluid = ReferenceFluid.hexane ↔
      exInput.latentHeat = none ∧ exInput.relievingTemperature = none ∧
        exInput.molecularMass = none)
    ∧ resolvedLatentHeat exInput = 334.9 := by
  have h := referenceFluid_resolution exInput exDerived
    (emergencyCore exInput exDerived 1.0) rfl
  exact ⟨h.1, h.2.1 rfl⟩

-- ─── C8 (code bug: missing zero guard) ────────────────────────────────────────

/-- C8: for positive total surface area the partially-insulated reduction
factor is the area-weighted blend `(A_inp/A_TTS)·R_in + (1 − A_inp/A_TTS)`,
equal to 1 at `A_inp = 0` and to `R_in` at `A_inp = A_TTS`.  (The claimed
`DivisionByZeroError` at `A_TTS = 0` does not exist in the implementation:
the division is unguarded, unlike the guarded version shown in PD.md §5.) -/
theorem calcR_inp_blend (A_TTS A_inp r_in : ℝ) (h : 0 < A_TTS) :
    calcR_inp A_TTS A_inp r_in = (A_inp / A_TTS) * r_in + (1 - A_inp / A_TTS)
    ∧ calcR_inp A_TTS 0 r_in = 1
    ∧ calcR_inp A_TTS A_TTS r_in = r_in := by
  have hne : A_TTS ≠ 0 := ne_of_gt h
  refine ⟨?_, ?_, ?_⟩
  · rw [calcR_inp]
    ring
  · rw [calcR_inp]
    simp
  · rw [calcR_inp]
    rw [div_self hne]
    ring

/-- Witness for C8 at `A_TTS = 2`, `A_inp = 1`, `R_in = 0.5`. -/
theorem calcR_inp_blend_witness :
    calcR_inp 2 1 0.5 = ((1 : ℝ) / 2) * 0.5 + (1 - (1 : ℝ) / 2)
    ∧ calcR_inp 2 0 0.5 = 1
    ∧ calcR_inp 2 2 0.5 = 0.5 := by
  have h := calcR_inp_blend 2 1 0.5 (by norm_num)
  exact ⟨h.1, h.2.1, h.2.2⟩

-- ─── C9 (corrected: timestamp field is not input-determined) ──────────────────

def timeA : String := "2024-01-01T00:00:00.000Z"

def timeB : String := "2024-01-01T00:00:01.000Z"

/-- `CalculationResult` with the `calculatedAt` timestamp erased. -/
def stripTimestamp (r : CalculationResult) : CalculationResult :=
  { r with calculatedAt := "" }

/-- C9 counterexample: two invocations of `calculate` on the identical input
differ when the clock readings differ — the `calculatedAt` field records the
invocation time, so the results are not bit-identical in every field. -/
theorem calculate_not_bitwise_deterministic :
    calculate exInput timeA ≠ calculate exInput timeB := by
  have hmap : ∀ t : String,
      (calculate exInput t).map CalculationResult.calculatedAt = Except.ok t :=
    fun t => rfl
  intro heq
  have h2 := congrArg (Except.map CalculationResult.calculatedAt) heq
  rw [hmap, hmap, Except.ok.injEq] at h2
  exact absurd h2 (by simp [timeA, timeB])

/-- C9 amended: `calculate` is a deterministic function of its input in every
field except `calculatedAt`, which records the invocation time. -/
theorem calculate_deterministic_up_to_timestamp (inp : CalculationInput)
    (t1 t2 : String) :
    (calculate inp t1).map stripTimestamp = (calculate inp t2).map stripTimestamp := by
  rcases hD : computeDerivedGeometry inp with e | der
  · simp [calculate, hD]
  · rcases hE : computeEmergencyVenting inp der with e | ev
    · simp [calculate, hD, hE]
    · simp [calculate, hD, hE, Except.map, stripTimestamp]

-- ─── Fold bounds helpers for C10 ──────────────────────────────────────────────

lemma foldr_min_le_init (a : ℝ) (l : List ℝ) : l.foldr min a ≤ a := by
  induction l with
  | nil => exact le_refl a
  | cons b t ih => exact le_trans (min_le_right b (t.foldr min a)) ih

lemma foldr_min_le_mem {b : ℝ} (a : ℝ) (l : List ℝ) (hb : b ∈ l) :
    l.foldr min a ≤ b := by
  induction l with
  | nil => cases hb
  | cons c t ih =>
      rcases List.mem_cons.mp hb with h | h
      · rw [h]; exact min_le_left _ _
      · exact le_trans (min_le_right _ _) (ih h)

lemma le_foldr_min {c a : ℝ} {l : List ℝ} (hca : c ≤ a) (hl : ∀ b ∈ l, c ≤ b) :
    c ≤ l.foldr min a := by
  induction l with
  | nil => exact hca
  | cons d t ih =>
      exact le_min (hl d (List.mem_cons_self _ _))
        (ih fun b hb => hl b (List.mem_cons_of_mem _ hb))

lemma init_le_foldr_max (a : ℝ) (l : List ℝ) : a ≤ l.foldr max a := by
  induction l with
  | nil => exact le_refl a
  | cons b t ih => exact le_trans ih (le_max_right b (t.foldr max a))

lemma mem_le_foldr_max {b : ℝ} (a : ℝ) (l : List ℝ) (hb : b ∈ l) :
    b ≤ l.foldr max a := by
  induction l with
  | nil => cases hb
  | cons c t ih =>
      rcases List.mem_cons.mp hb with h | h
      · rw [h]; exact le_max_left _ _
      · exact le_trans (ih h) (le_max_right _ _)

lemma foldr_max_le {c a : ℝ} {l : List ℝ} (hca : a ≤ c) (hl : ∀ b ∈ l, b ≤ c) :
    l.foldr max a ≤ c := by
  induction l with
  | nil => exact hca
  | cons d t ih =>
      exact max_le (hl d (List.mem_cons_self _ _))
        (ih fun b hb => hl b (List.mem_cons_of_mem _ hb))

/-- A single interpolation step lands between its two endpoint values. -/
lemma interpStep_between {x : ℝ} (p q : ℝ × ℝ) (hle : p.1 ≤ x) (hlt : x < q.1) :
    min p.2 q.2 ≤ p.2 + ((q.2 - p.2) / (q.1 - p.1)) * (x - p.1)
    ∧ p.2 + ((q.2 - p.2) / (q.1 - p.1)) * (x - p.1) ≤ max p.2 q.2 := by
  have hd : 0 < q.1 - p.1 := by linarith
  set u := (x - p.1) / (q.1 - p.1) with hu
  have hu0 : 0 ≤ u := div_nonneg (by linarith) hd.le
  have hu1 : u ≤ 1 := by
    rw [hu, div_le_one hd]; linarith
  have he : p.2 + ((q.2 - p.2) / (q.1 - p.1)) * (x - p.1) = (1 - u) * p.2 + u * q.2 := by
    rw [hu]
    field_simp
    ring
  rw [he]
  constructor
  · calc min p.2 q.2 = (1 - u) * min p.2 q.2 + u * min p.2 q.2 := by ring
      _ ≤ (1 - u) * p.2 + u * q.2 :=
        add_le_add (mul_le_mul_of_nonneg_left (min_le_left _ _) (by linarith))
          (mul_le_mul_of_nonneg_left (min_le_right _ _) hu0)
  · calc (1 - u) * p.2 + u * q.2
        ≤ (1 - u) * max p.2 q.2 + u * max p.2 q.2 :=
          add_le_add (mul_le_mul_of_nonneg_left (le_max_left _ _) (by linarith))
            (mul_le_mul_of_nonneg_left (le_max_right _ _) hu0)
      _ = max p.2 q.2 := by ring

lemma interpLoop_bounds {x : ℝ} :
    ∀ (l : List (ℝ × ℝ)) (p : ℝ × ℝ), p.1 ≤ x →
      (l.map Prod.snd).foldr min p.2 ≤ interpLoop x p l
      ∧ interpLoop x p l ≤ (l.map Prod.snd).foldr max p.2 := by
  intro l
  induction l with
  | nil => intro p _; simp [interpLoop]
  | cons q t ih =>
      intro p hp
      by_cases hq : x < q.1
      · rw [interpLoop_stop p t hq]
        have hb := interpStep_between p q hp hq
        simp only [List.map_cons, List.foldr_cons]
        constructor
        · have h1 : min q.2 ((t.map Prod.snd).foldr min p.2) ≤ min p.2 q.2 :=
            le_min (le_trans (min_le_right _ _) (foldr_min_le_init _ _)) (min_le_left _ _)
          exact le_trans h1 hb.1
        · have h1 : max p.2 q.2 ≤ max q.2 ((t.map Prod.snd).foldr max p.2) :=
            max_le (le_trans (init_le_foldr_max _ _) (le_max_right _ _)) (le_max_left _ _)
          exact le_trans hb.2 h1
      · have hq2 : q.1 ≤ x := le_of_not_lt hq
        have hstep : interpLoop x p (q :: t) = interpLoop x q t := by
          simp [interpLoop, hq]
        have ihq := ih q hq2
        rw [hstep]
        simp only [List.map_cons, List.foldr_cons]
        constructor
        · have hlow : min q.2 ((t.map Prod.snd).foldr min p.2) ≤
              (t.map Prod.snd).foldr min q.2 :=
            le_foldr_min (min_le_left _ _)
              (fun b hb => le_trans (min_le_right _ _) (foldr_min_le_mem _ _ hb))
          exact le_trans hlow ihq.1
        · have hhigh : (t.map Prod.snd).foldr max q.2 ≤
              max q.2 ((t.map Prod.snd).foldr max p.2) :=
            foldr_max_le (le_max_left _ _)
              (fun b hb => le_trans (mem_le_foldr_max _ _ hb) (le_max_right _ _))
          exact le_trans ihq.2 hhigh

lemma interpolateNE_bounds (x : ℝ) (p : ℝ × ℝ) (l : List (ℝ × ℝ)) :
    ((p :: l).map Prod.snd).foldr min p.2 ≤ interpolateNE x (p :: l)
    ∧ interpolateNE x (p :: l) ≤ ((p :: l).map Prod.snd).foldr max p.2 := by
  cases l with
  | nil =>
      constructor
      · simp [interpolateNE]
      · simp [interpolateNE]
  | cons q t =>
      simp only [interpolateNE]
      split_ifs with h1 h2
      · constructor
        · simp only [List.map_cons, List.foldr_cons]
          exact min_le_left _ _
        · simp only [List.map_cons, List.foldr_cons]
          exact le_max_left _ _
      · have hmem : ((q :: t).getLast (List.cons_ne_nil q t)).2 ∈
            ((p :: q :: t).map Prod.snd) :=
          List.mem_map_of_mem Prod.snd
            (List.mem_cons_of_mem p (List.getLast_mem (List.cons_ne_nil q t)))
        constructor
        · exact foldr_min_le_mem _ _ hmem
        · exact mem_le_foldr_max _ _ hmem
      · have hp : p.1 ≤ x := le_of_lt (lt_of_not_ge h1)
        have hb := interpLoop_bounds (q :: t) p hp
        constructor
        · refine le_trans ?_ hb.1
          simp only [List.map_cons, List.foldr_cons]
          exact min_le_right _ _
        · refine le_trans hb.2 ?_
          simp only [List.map_cons, List.foldr_cons]
          exact le_max_right _ _

/-- Any non-empty table whose values all lie in `[LB, UB]` yields an
interpolated value in `[LB, UB]`. -/
lemma interpolateNE_bounds_all (x LB UB : ℝ) (t : List (ℝ × ℝ)) (hne : t ≠ [])
    (hb : ∀ v ∈ t.map Prod.snd, LB ≤ v ∧ v ≤ UB) :
    LB ≤ interpolateNE x t ∧ interpolateNE x t ≤ UB := by
  cases t with
  | nil => exact absurd rfl hne
  | cons p l =>
      have h := interpolateNE_bounds x p l
      have hp2 : LB ≤ p.2 ∧ p.2 ≤ UB :=
        hb p.2 (List.mem_map_of_mem Prod.snd (List.mem_cons_self _ _))
      constructor
      · exact le_trans (le_foldr_min hp2.1 (fun b hbm => (hb b hbm).1)) h.1
      · exact le_trans h.2 (foldr_max_le hp2.2 (fun b hbm => (hb b hbm).2))

-- ─── C10 ──────────────────────────────────────────────────────────────────────

/-- C10: `interpolate` over a non-empty sorted table always returns a value
between the minimum and the maximum of the table values, and every downstream
lookup returns a value bounded by its table extremes for any input:
the normal-vent columns, the emergency-vent table, the insulated F-factor,
the Y-factor and the C-factor. -/
theorem interpolate_within_table_range (p : ℝ × ℝ) (l : List (ℝ × ℝ)) (x y : ℝ)
    (hs : (p :: l).Pairwise keyLt)
    (h : interpolate x (p :: l) = Except.ok y) :
    (((p :: l).map Prod.snd).foldr min p.2 ≤ y
      ∧ y ≤ ((p :: l).map Prod.snd).foldr max p.2)
    ∧ (∀ c, 1.69 ≤ normalVentInbreathing c ∧ normalVentInbreathing c ≤ 2495)
    ∧ (∀ c b, 1.01 ≤ normalVentOutbreathing c b ∧ normalVentOutbreathing c b ≤ 2495)
    ∧ (∀ a2, 608 ≤ emergencyVentTableLookup a2 ∧ emergencyVentTableLookup a2 ≤ 19910)
    ∧ (∀ k t, 0.025 ≤ getFFactorInsulated k t ∧ getFFactorInsulated k t ≤ 0.3)
    ∧ (∀ lat, 0.2 ≤ getYFactor lat ∧ getYFactor lat ≤ 0.32)
    ∧ (∀ lat ft fv cap, 2.5 ≤ getCFactor lat ft fv cap ∧ getCFactor lat ft fv cap ≤ 6.5) := by
  refine ⟨?_, ?_, ?_, ?_, ?_, ?_, ?_⟩
  · rw [interpolate_eq_ok x _ (List.cons_ne_nil p l), Except.ok.injEq] at h
    rw [← h]
    exact interpolateNE_bounds x p l
  · intro c
    rw [normalVentInbreathing]
    exact interpolateNE_bounds_all c 1.69 2495 INBREATHING_COL
      (by simp [INBREATHING_COL, NORMAL_VENT_TABLE])
      (by norm_num [INBREATHING_COL, NORMAL_VENT_TABLE, List.forall_mem_cons])
  · intro c b
    rw [normalVentOutbreathing]
    cases b
    · rw [if_neg (by simp)]
      exact interpolateNE_bounds_all c 1.01 2495 OUT_OTHER_COL
        (by simp [OUT_OTHER_COL, NORMAL_VENT_TABLE])
        (by norm_num [OUT_OTHER_COL, NORMAL_VENT_TABLE, List.forall_mem_cons])
    · rw [if_pos rfl]
      exact interpolateNE_bounds_all c 1.01 2495 OUT_LOW_VOL_COL
        (by simp [OUT_LOW_VOL_COL, NORMAL_VENT_TABLE])
        (by norm_num [OUT_LOW_VOL_COL, NORMAL_VENT_TABLE, List.forall_mem_cons])
  · intro a2
    rw [emergencyVentTableLookup]
    exact interpolateNE_bounds_all a2 608 19910 EMERGENCY_VENT_TABLE
      (by simp [EMERGENCY_VENT_TABLE])
      (by norm_num [EMERGENCY_VENT_TABLE, List.forall_mem_cons])
  · intro k t
    simp only [getFFactorInsulated]
    exact interpolateNE_bounds_all _ 0.025 0.3 F_FACTOR_TABLE
      (by simp [F_FACTOR_TABLE])
      (by norm_num [F_FACTOR_TABLE, List.forall_mem_cons])
  · intro lat
    simp only [getYFactor]
    split_ifs <;> norm_num
  · intro lat ft fv cap
    simp only [getCFactor]
    split_ifs <;> norm_num

/-- Witness for C10 at the concrete table `[(0,1),(2,5)]`, `x = 1`, `y = 3`. -/
theorem interpolate_within_table_range_witness :
    ([((0 : ℝ), (1 : ℝ)), ((2 : ℝ), (5 : ℝ))].map Prod.snd).foldr min (1 : ℝ) ≤ 3
    ∧ (3 : ℝ) ≤ ([((0 : ℝ), (1 : ℝ)), ((2 : ℝ), (5 : ℝ))].map Prod.snd).foldr max (1 : ℝ) := by
  have hs : ([((0 : ℝ), (1 : ℝ)), ((2 : ℝ), (5 : ℝ))]).Pairwise keyLt := by
    simp [keyLt]
  have hint : interpolate (1 : ℝ) [((0 : ℝ), (1 : ℝ)), ((2 : ℝ), (5 : ℝ))] =
      Except.ok 3 := by
    rw [interpolate_eq_ok _ _ (by simp)]
    norm_num [interpolateNE, interpLoop, List.getLast]
  exact (interpolate_within_table_range ((0 : ℝ), (1 : ℝ)) [((2 : ℝ), (5 : ℝ))]
    1 3 hs hint).1

end Venting
